import Mathlib

/-!
# NeuraOrchestra — verification of the record-keeping core

Shallow embedding of `src/main.py` (FastAPI route handlers over a SQLite
store plus an MLflow tracking mirror).  The four SQLAlchemy tables become
lists of rows inside a `Store`; each route handler becomes a function from
request data and store to a new store and a result.  Python `float` values
are never inspected or combined by the code under verification — they are
only stored and echoed back — so they are carried by `Int`, an arbitrary
type with decidable equality.  `Dict[str, Any]` config values are likewise
opaque to the code and carried by `String`.  Timestamps (`datetime.utcnow`)
and generated UUIDs (`uuid.uuid4`) are nondeterministic inputs; the
embedding takes them as explicit parameters of each call.
-/

namespace NeuraOrchestra

/-- A Python float value, opaque to the code (stored and echoed only). -/
abbrev PyFloat := Int

/-- A Python `Any` value appearing in `config : Dict[str, Any]`, opaque to
the code (forwarded verbatim only). -/
abbrev PyAny := String

/-! ## Database rows (`main.py` lines 22–51) -/

/-- Row of `model_versions` (`main.py` lines 22–27). -/
structure ModelVersion where
  id : Nat
  model_name : String
  version : String
  created_at : Nat
deriving Repr, DecidableEq

/-- Row of `training_jobs` (`main.py` lines 29–35): `job_id` is generated
at insert time (`uuid.uuid4`, unique constraint), `status` defaults to
`"pending"`. -/
structure TrainingJob where
  id : Nat
  job_id : String
  model_name : String
  status : String
  created_at : Nat
deriving Repr, DecidableEq

/-- Row of `metrics` (`main.py` lines 37–43). -/
structure Metric where
  id : Nat
  job_id : String
  metric_name : String
  value : PyFloat
  timestamp : Nat
deriving Repr, DecidableEq

/-- Row of `hyperparameters` (`main.py` lines 45–51). -/
structure Hyperparameter where
  id : Nat
  job_id : String
  param_name : String
  param_value : PyFloat
  timestamp : Nat
deriving Repr, DecidableEq

/-! ## Request bodies (`main.py` lines 80–101) -/

/-- Body of `POST /models/` (`main.py` lines 80–82). -/
structure ModelVersionCreate where
  model_name : String
  version : String
deriving Repr, DecidableEq

/-- Body of `POST /training-jobs/` (`main.py` lines 84–87).  Python dicts
are insertion-ordered association lists. -/
structure TrainingJobCreate where
  model_name : String
  hyperparameters : List (String × PyFloat)
  config : List (String × PyAny)
deriving Repr, DecidableEq

/-- Body of `POST /training-jobs/{job_id}/metrics` (`main.py` lines
89–92).  Its fields are exactly `job_id`, `metric_name`, `value`:
there is no `timestamp` field. -/
structure MetricCreate where
  job_id : String
  metric_name : String
  value : PyFloat
deriving Repr, DecidableEq

/-- Python attribute lookup of `timestamp` on a `MetricCreate` object.
`MetricCreate` (`main.py` lines 89–92) declares no such attribute, so the
lookup never produces a value; at runtime Python raises `AttributeError`.
Line 157 of `main.py` performs exactly this lookup. -/
def MetricCreate.timestampAttr : MetricCreate → Option Nat := fun _ => none

/-- Body of `POST /training-jobs/{job_id}/hyperparameters` (`main.py`
lines 94–97). -/
structure HyperparameterCreate where
  job_id : String
  param_name : String
  param_value : PyFloat
deriving Repr, DecidableEq

/-- Body of `PATCH /training-jobs/{job_id}` (`main.py` lines 99–101). -/
structure TrainingJobStatusUpdate where
  job_id : String
  status : String
deriving Repr, DecidableEq

/-! ## Tracking mirror (MLflow) -/

/-- One call forwarded to the external tracking collaborator.  The mirror
is specified only at its interface boundary, so the embedding records the
sequence of forwarded calls. -/
inductive MirrorEvent where
  | startRun (run_name : String)
  | endRun
  | logParams (params : List (String × PyAny))
  | logMetrics (metrics : List (String × PyFloat))
  | logMetricStep (metric_name : String) (value : PyFloat) (step : Nat)
  | logParam (param_name : String) (value : PyFloat)
deriving Repr, DecidableEq

/-! ## The store -/

/-- The record store: the four tables (row lists in rowid order, i.e.
insertion order — SQLite `.all()` with no `order_by` returns rowid order)
plus the log of calls forwarded to the tracking mirror. -/
structure Store where
  model_versions : List ModelVersion
  training_jobs : List TrainingJob
  metrics : List Metric
  hyperparameters : List Hyperparameter
  mirror : List MirrorEvent
deriving Repr, DecidableEq

/-- The store right after `Base.metadata.create_all` on a fresh database:
four empty tables, nothing forwarded yet. -/
def emptyStore : Store := ⟨[], [], [], [], []⟩

/-- `db.query(TrainingJob).filter(TrainingJob.job_id == job_id).first()`. -/
def findJob (st : Store) (job_id : String) : Option TrainingJob :=
  st.training_jobs.find? (fun j => j.job_id == job_id)

/-- `job.status = s; db.commit()` on the ORM object returned by
`.first()`: mutates the first row whose `job_id` matches. -/
def setStatusFirst (l : List TrainingJob) (job_id s : String) :
    List TrainingJob :=
  match l with
  | [] => []
  | j :: rest =>
    if j.job_id == job_id then { j with status := s } :: rest
    else j :: setStatusFirst rest job_id s

/-! ## Errors and results -/

/-- Failures observable from a route handler: the explicit
`HTTPException`s, a unique-constraint rejection from the store, and an
uncaught Python `AttributeError` (surfaced by FastAPI as a 500). -/
inductive ApiErr where
  | httpException (status_code : Nat) (detail : String)
  | integrityError
  | attributeError (attr : String)
deriving Repr, DecidableEq

/-- A successful route handler's return value. -/
inductive Value where
  | job (j : TrainingJob)
  | modelVersion (m : ModelVersion)
  | modelVersionList (ms : List ModelVersion)
  | metricList (ms : List Metric)
  | hyperparameterList (hs : List Hyperparameter)
deriving Repr, DecidableEq

abbrev ApiResult := Except ApiErr Value

/-! ## Route handlers (`main.py` lines 104–180)

Each handler returns the post-state of the store **and** the result: a
row committed by `db.commit()` before a later uncaught exception stays
committed, so on such a failure the returned store differs from the
input store. -/

/-- `POST /models/` (`main.py` lines 104–110). -/
def create_model_version (model : ModelVersionCreate) (now : Nat)
    (st : Store) : Store × ApiResult :=
  let db_model : ModelVersion :=
    { id := st.model_versions.length + 1, model_name := model.model_name,
      version := model.version, created_at := now }
  ({ st with model_versions := st.model_versions ++ [db_model] },
   .ok (.modelVersion db_model))

/-- `GET /models/{model_name}` (`main.py` lines 112–114). -/
def get_model_versions (model_name : String) (st : Store) :
    Store × ApiResult :=
  (st, .ok (.modelVersionList
    (st.model_versions.filter (fun m => m.model_name == model_name))))

/-- `POST /training-jobs/` (`main.py` lines 116–127).  `new_uuid` is the
value produced by `uuid.uuid4()` for the row default; the `unique=True`
constraint on `job_id` rejects the commit if that value is already taken.
On success the handler opens a tracking run named after the job id,
forwards `config` via `log_params` and `hyperparameters` via
`log_metrics` (the dict comprehension on line 125 is the identity), and
closes the run. -/
def create_training_job (job : TrainingJobCreate) (new_uuid : String)
    (now : Nat) (st : Store) : Store × ApiResult :=
  if st.training_jobs.any (fun j => j.job_id == new_uuid) then
    (st, .error .integrityError)
  else
    let db_job : TrainingJob :=
      { id := st.training_jobs.length + 1, job_id := new_uuid,
        model_name := job.model_name, status := "pending",
        created_at := now }
    let st' := { st with
      training_jobs := st.training_jobs ++ [db_job],
      mirror := st.mirror ++
        [.startRun db_job.job_id, .logParams job.config,
         .logMetrics job.hyperparameters, .endRun] }
    (st', .ok (.job db_job))

/-- `GET /training-jobs/{job_id}` (`main.py` lines 129–134). -/
def get_training_job (job_id : String) (st : Store) : Store × ApiResult :=
  match findJob st job_id with
  | none => (st, .error (.httpException 404 "Job not found"))
  | some job => (st, .ok (.job job))

/-- `PATCH /training-jobs/{job_id}` (`main.py` lines 136–144).  The row
is looked up by the **path** `job_id`; the body's `job_id` field is never
read.  The status string is written unconditionally. -/
def update_training_job (job_id : String)
    (status : TrainingJobStatusUpdate) (st : Store) : Store × ApiResult :=
  match findJob st job_id with
  | none => (st, .error (.httpException 404 "Job not found"))
  | some job =>
    let st' := { st with
      training_jobs := setStatusFirst st.training_jobs job_id status.status }
    (st', .ok (.job { job with status := status.status }))

/-- `POST /training-jobs/{job_id}/metrics` (`main.py` lines 146–158).
Existence is checked on the **path** `job_id`, but the inserted row takes
its `job_id` from the **body** (`Metric(**metric.dict())`).  After the
commit, line 157 evaluates `metric.timestamp` on the `MetricCreate`
body, which has no `timestamp` attribute: `AttributeError`, an uncaught
exception, so the forwarding never happens and the handler fails — the
committed row stays. -/
def log_metric (job_id : String) (metric : MetricCreate) (now : Nat)
    (st : Store) : Store × ApiResult :=
  match findJob st job_id with
  | none => (st, .error (.httpException 404 "Job not found"))
  | some job =>
    let db_metric : Metric :=
      { id := st.metrics.length + 1, job_id := metric.job_id,
        metric_name := metric.metric_name, value := metric.value,
        timestamp := now }
    let st' := { st with metrics := st.metrics ++ [db_metric] }
    match MetricCreate.timestampAttr metric with
    | none => (st', .error (.attributeError "timestamp"))
    | some ts =>
      ({ st' with mirror := st'.mirror ++
          [.logMetricStep metric.metric_name metric.value ts] },
       .ok (.job job))

/-- `POST /training-jobs/{job_id}/hyperparameters` (`main.py` lines
160–172).  Existence is checked on the path `job_id`; the inserted row
takes its `job_id` from the body; `(param_name, param_value)` is then
forwarded to the mirror. -/
def log_hyperparameter (job_id : String)
    (hyperparameter : HyperparameterCreate) (now : Nat) (st : Store) :
    Store × ApiResult :=
  match findJob st job_id with
  | none => (st, .error (.httpException 404 "Job not found"))
  | some job =>
    let db_hyperparam : Hyperparameter :=
      { id := st.hyperparameters.length + 1,
        job_id := hyperparameter.job_id,
        param_name := hyperparameter.param_name,
        param_value := hyperparameter.param_value, timestamp := now }
    ({ st with
        hyperparameters := st.hyperparameters ++ [db_hyperparam],
        mirror := st.mirror ++
          [.logParam hyperparameter.param_name
            hyperparameter.param_value] },
     .ok (.job job))

/-- `GET /metrics/{job_id}` (`main.py` lines 174–176): a filtered scan,
no existence check on `job_id`, rowid (insertion) order. -/
def get_metrics (job_id : String) (st : Store) : Store × ApiResult :=
  (st, .ok (.metricList (st.metrics.filter (fun m => m.job_id == job_id))))

/-- `GET /hyperparameters/{job_id}` (`main.py` lines 178–180). -/
def get_hyperparameters (job_id : String) (st : Store) :
    Store × ApiResult :=
  (st, .ok (.hyperparameterList
    (st.hyperparameters.filter (fun h => h.job_id == job_id))))

/-! ## API traces -/

/-- One incoming API call, with its nondeterministic inputs (generated
uuid, current time) made explicit. -/
inductive Action where
  | createModelVersion (model : ModelVersionCreate) (now : Nat)
  | getModelVersions (model_name : String)
  | createTrainingJob (job : TrainingJobCreate) (new_uuid : String)
      (now : Nat)
  | getTrainingJob (job_id : String)
  | updateTrainingJob (job_id : String) (body : TrainingJobStatusUpdate)
  | logMetric (job_id : String) (body : MetricCreate) (now : Nat)
  | logHyperparameter (job_id : String) (body : HyperparameterCreate)
      (now : Nat)
  | getMetrics (job_id : String)
  | getHyperparameters (job_id : String)
deriving Repr, DecidableEq

/-- Dispatch one API call to its handler. -/
def apply (a : Action) (st : Store) : Store × ApiResult :=
  match a with
  | .createModelVersion model now => create_model_version model now st
  | .getModelVersions model_name => get_model_versions model_name st
  | .createTrainingJob job new_uuid now =>
      create_training_job job new_uuid now st
  | .getTrainingJob job_id => get_training_job job_id st
  | .updateTrainingJob job_id body => update_training_job job_id body st
  | .logMetric job_id body now => log_metric job_id body now st
  | .logHyperparameter job_id body now =>
      log_hyperparameter job_id body now st
  | .getMetrics job_id => get_metrics job_id st
  | .getHyperparameters job_id => get_hyperparameters job_id st

/-- The store after one API call. -/
def step (st : Store) (a : Action) : Store := (apply a st).1

/-- The store after a sequence of API calls. -/
def run (st : Store) (as : List Action) : Store := as.foldl step st

/-- The externally visible job identifiers currently in the store. -/
def jobIds (st : Store) : List String :=
  st.training_jobs.map (fun j => j.job_id)

/-- The `job_id` returned by one API call when that call is a successful
`create_training_job`, else nothing. -/
def createOutput (st : Store) (a : Action) : List String :=
  match a, (apply a st).2 with
  | .createTrainingJob _ _ _, .ok (.job j) => [j.job_id]
  | _, _ => []

/-- The `job_id` values returned by the successful `create_training_job`
calls of a trace, in order. -/
def createdJobIds : Store → List Action → List String
  | _, [] => []
  | st, a :: rest => createOutput st a ++ createdJobIds (step st a) rest

/-- Referential integrity of the `metrics` table: every metric row's
`job_id` belongs to some training job currently in the store. -/
def metricJobsExist (st : Store) : Prop :=
  ∀ m ∈ st.metrics, m.job_id ∈ jobIds st

instance : DecidablePred metricJobsExist := fun st =>
  inferInstanceAs (Decidable (∀ m ∈ st.metrics, m.job_id ∈ jobIds st))

/-- A request is well formed when the `job_id` repeated in its body
agrees with the `job_id` of its URL path (here needed only for the
metric-logging route). -/
def bodyMatchesPath : Action → Bool
  | .logMetric job_id body _ => body.job_id == job_id
  | _ => true

/-! ## Helper lemmas -/

/-- Updating the status of a row does not touch the `job_id` column. -/
lemma map_jobId_setStatusFirst (l : List TrainingJob) (job_id s : String) :
    (setStatusFirst l job_id s).map (fun j => j.job_id) =
      l.map (fun j => j.job_id) := by
  induction l with
  | nil => rfl
  | cons j rest ih =>
    by_cases h : (j.job_id == job_id) = true
    · simp [setStatusFirst, h]
    · simp [setStatusFirst, h, ih]

/-- No API call ever removes a job identifier from the store. -/
lemma jobIds_step_mono (st : Store) (a : Action) :
    jobIds st ⊆ jobIds (step st a) := by
  intro x hx
  cases a with
  | createModelVersion model now =>
      simpa [step, apply, create_model_version, jobIds] using hx
  | getModelVersions model_name =>
      simpa [step, apply, get_model_versions, jobIds] using hx
  | createTrainingJob job new_uuid now =>
      by_cases h : (st.training_jobs.any (fun j => j.job_id == new_uuid))
        = true
      · simpa [step, apply, create_training_job, h, jobIds] using hx
      · simp only [step, apply, create_training_job, h, if_false,
          Bool.false_eq_true, jobIds, List.map_append]
        exact List.mem_append_left _ hx
  | getTrainingJob job_id =>
      cases h : findJob st job_id <;>
        simpa [step, apply, get_training_job, h, jobIds] using hx
  | updateTrainingJob job_id body =>
      cases h : findJob st job_id with
      | none => simpa [step, apply, update_training_job, h, jobIds] using hx
      | some job =>
          simpa [step, apply, update_training_job, h, jobIds,
            map_jobId_setStatusFirst] using hx
  | logMetric job_id body now =>
      cases h : findJob st job_id <;>
        simpa [step, apply, log_metric, h, jobIds,
          MetricCreate.timestampAttr] using hx
  | logHyperparameter job_id body now =>
      cases h : findJob st job_id <;>
        simpa [step, apply, log_hyperparameter, h, jobIds] using hx
  | getMetrics job_id =>
      simpa [step, apply, get_metrics, jobIds] using hx
  | getHyperparameters job_id =>
      simpa [step, apply, get_hyperparameters, jobIds] using hx

/-- A `job_id` returned by a successful creation call was free before the
call and is taken right after it. -/
lemma createOutput_spec (st : Store) (a : Action) (x : String)
    (hx : x ∈ createOutput st a) :
    x ∉ jobIds st ∧ x ∈ jobIds (step st a) := by
  cases a with
  | createTrainingJob job new_uuid now =>
      by_cases h : (st.training_jobs.any (fun j => j.job_id == new_uuid))
        = true
      · simp [createOutput, apply, create_training_job, h] at hx
      · have hx' : x = new_uuid := by
          simpa [createOutput, apply, create_training_job, h] using hx
        subst hx'
        constructor
        · intro hmem
          rcases List.mem_map.mp hmem with ⟨j, hj, hjid⟩
          have : st.training_jobs.any (fun j => j.job_id == x) = true :=
            List.any_eq_true.mpr ⟨j, hj, by simp [hjid]⟩
          exact h this
        · simp [step, apply, create_training_job, h, jobIds]
  | createModelVersion model now => simp [createOutput, apply] at hx
  | getModelVersions model_name => simp [createOutput, apply] at hx
  | getTrainingJob job_id => simp [createOutput, apply] at hx
  | updateTrainingJob job_id body => simp [createOutput, apply] at hx
  | logMetric job_id body now => simp [createOutput, apply] at hx
  | logHyperparameter job_id body now => simp [createOutput, apply] at hx
  | getMetrics job_id => simp [createOutput, apply] at hx
  | getHyperparameters job_id => simp [createOutput, apply] at hx

/-- Every `job_id` handed out along a trace was free in the starting
store. -/
lemma createdJobIds_fresh :
    ∀ (as : List Action) (st : Store) (x : String),
      x ∈ createdJobIds st as → x ∉ jobIds st := by
  intro as
  induction as with
  | nil => intro st x hx; simp [createdJobIds] at hx
  | cons a rest ih =>
    intro st x hx
    rcases List.mem_append.mp hx with h1 | h2
    · exact (createOutput_spec st a x h1).1
    · intro hmem
      exact ih (step st a) x h2 (jobIds_step_mono st a hmem)

/-- The `job_id` values handed out along a trace are pairwise distinct. -/
lemma createdJobIds_nodup :
    ∀ (as : List Action) (st : Store), (createdJobIds st as).Nodup := by
  intro as
  induction as with
  | nil => intro st; simp [createdJobIds]
  | cons a rest ih =>
    intro st
    have tail_nodup := ih (step st a)
    cases ha : createOutput st a with
    | nil => simpa [createdJobIds, ha] using tail_nodup
    | cons y ys =>
      have hys : ys = [] := by
        cases a with
        | createTrainingJob job new_uuid now =>
            by_cases h :
              (st.training_jobs.any (fun j => j.job_id == new_uuid)) = true
            · simp [createOutput, apply, create_training_job, h] at ha
            · simp [createOutput, apply, create_training_job, h] at ha
              exact ha.2
        | createModelVersion model now => simp [createOutput, apply] at ha
        | getModelVersions model_name => simp [createOutput, apply] at ha
        | getTrainingJob job_id => simp [createOutput, apply] at ha
        | updateTrainingJob job_id body => simp [createOutput, apply] at ha
        | logMetric job_id body now => simp [createOutput, apply] at ha
        | logHyperparameter job_id body now =>
            simp [createOutput, apply] at ha
        | getMetrics job_id => simp [createOutput, apply] at ha
        | getHyperparameters job_id => simp [createOutput, apply] at ha
      subst hys
      have hy : y ∈ createOutput st a := by simp [ha]
      have hy' : y ∈ jobIds (step st a) := (createOutput_spec st a y hy).2
      have hnotin : y ∉ createdJobIds (step st a) rest := fun hmem =>
        (createdJobIds_fresh rest _ y hmem) hy'
      simp [createdJobIds, ha, List.nodup_cons, hnotin, tail_nodup]

/-- One well-formed API call preserves referential integrity of the
`metrics` table. -/
lemma metricJobsExist_step (st : Store) (a : Action)
    (hst : metricJobsExist st) (ha : bodyMatchesPath a = true) :
    metricJobsExist (step st a) := by
  have mono := jobIds_step_mono st a
  intro m hm
  cases a with
  | createModelVersion model now =>
      exact mono (hst m (by simpa [step, apply, create_model_version]
        using hm))
  | getModelVersions model_name =>
      exact mono (hst m (by simpa [step, apply, get_model_versions]
        using hm))
  | createTrainingJob job new_uuid now =>
      by_cases h : (st.training_jobs.any (fun j => j.job_id == new_uuid))
        = true
      · exact mono (hst m (by simpa [step, apply, create_training_job, h]
          using hm))
      · exact mono (hst m (by simpa [step, apply, create_training_job, h]
          using hm))
  | getTrainingJob job_id =>
      cases h : findJob st job_id with
      | none => exact mono (hst m (by simpa [step, apply,
          get_training_job, h] using hm))
      | some job => exact mono (hst m (by simpa [step, apply,
          get_training_job, h] using hm))
  | updateTrainingJob job_id body =>
      cases h : findJob st job_id with
      | none => exact mono (hst m (by simpa [step, apply,
          update_training_job, h] using hm))
      | some job => exact mono (hst m (by simpa [step, apply,
          update_training_job, h] using hm))
  | logMetric job_id body now =>
      cases h : findJob st job_id with
      | none => exact mono (hst m (by simpa [step, apply, log_metric, h]
          using hm))
      | some job =>
          have hm' : m ∈ st.metrics ∨
              m = ⟨st.metrics.length + 1, body.job_id, body.metric_name,
                body.value, now⟩ := by
            simpa [step, apply, log_metric, h,
              MetricCreate.timestampAttr] using hm
          rcases hm' with hm1 | hm2
          · exact mono (hst m hm1)
          · have hbid : body.job_id = job_id := by
              simpa [bodyMatchesPath] using ha
            have hjob_mem : job ∈ st.training_jobs :=
              List.mem_of_find?_eq_some h
            have hjob_id : job.job_id = job_id := by
              have := List.find?_some h
              simpa using this
            apply mono
            subst hm2
            simp only [jobIds, hbid]
            exact List.mem_map.mpr ⟨job, hjob_mem, hjob_id⟩
  | logHyperparameter job_id body now =>
      cases h : findJob st job_id with
      | none => exact mono (hst m (by simpa [step, apply,
          log_hyperparameter, h] using hm))
      | some job => exact mono (hst m (by simpa [step, apply,
          log_hyperparameter, h] using hm))
  | getMetrics job_id =>
      exact mono (hst m (by simpa [step, apply, get_metrics] using hm))
  | getHyperparameters job_id =>
      exact mono (hst m (by simpa [step, apply, get_hyperparameters]
        using hm))

/-- A trace of well-formed API calls preserves referential integrity of
the `metrics` table. -/
lemma metricJobsExist_run :
    ∀ (as : List Action) (st : Store), metricJobsExist st →
      (∀ a ∈ as, bodyMatchesPath a = true) →
      metricJobsExist (run st as) := by
  intro as
  induction as with
  | nil => intro st hst _; simpa [run] using hst
  | cons a rest ih =>
    intro st hst hwf
    have h1 : metricJobsExist (step st a) :=
      metricJobsExist_step st a hst (hwf a (by simp))
    have h2 : run st (a :: rest) = run (step st a) rest := by
      simp [run]
    rw [h2]
    exact ih (step st a) h1 (fun b hb => hwf b (by simp [hb]))

/-- After `setStatusFirst`, the first row matching the looked-up
`job_id` is the old first match with its status overwritten. -/
lemma find_setStatusFirst (l : List TrainingJob) (job_id s : String)
    (j : TrainingJob)
    (h : l.find? (fun x => x.job_id == job_id) = some j) :
    (setStatusFirst l job_id s).find? (fun x => x.job_id == job_id) =
      some { j with status := s } := by
  induction l with
  | nil => simp [List.find?] at h
  | cons x rest ih =>
    by_cases hx : (x.job_id == job_id) = true
    · have hj : x = j := by
        simpa [List.find?, hx] using h
      subst hj
      simp [setStatusFirst, hx, List.find?]
    · have h' : rest.find? (fun y => y.job_id == job_id) = some j := by
        simpa [List.find?, hx] using h
      simp [setStatusFirst, hx, List.find?, ih h']

/-! ## Claims -/

/-- C1: the claim says `log_metric` on an existing job inserts a Metric
row, forwards `(metric_name, value, step=timestamp)` to the Tracking
Mirror and returns the job without error.  On the code, after the row is
committed, line 157 reads `metric.timestamp` on the `MetricCreate` body,
which has no `timestamp` attribute: the request fails with an uncaught
`AttributeError`, nothing is forwarded to the mirror, and the committed
row stays.  This theorem evaluates the handler at a concrete failing
input. -/
theorem C1_log_metric_crashes_after_commit :
    log_metric "jid-1" ⟨"jid-1", "accuracy", 92⟩ 5
        (step emptyStore (.createTrainingJob
          ⟨"resnet", [("lr", 1)], [("epochs", "10")]⟩ "jid-1" 0)) =
      ({ model_versions := [],
         training_jobs := [⟨1, "jid-1", "resnet", "pending", 0⟩],
         metrics := [⟨1, "jid-1", "accuracy", 92, 5⟩],
         hyperparameters := [],
         mirror := [.startRun "jid-1", .logParams [("epochs", "10")],
                    .logMetrics [("lr", 1)], .endRun] },
       .error (.attributeError "timestamp")) := rfl

/-- C2 (counterexample): the claim asserts that every Metric row is
created while a TrainingJob with the same `job_id` exists, even when the
body `job_id` differs from the path `job_id`.  On the code, existence is
checked against the path `job_id` but the row is inserted with the body
`job_id`: after creating job `jid-1` and logging a metric at path
`jid-1` with body `job_id = "ghost"`, the store holds a Metric row for
`ghost` while no state of the trace ever held a job `ghost`. -/
theorem C2_counterexample :
    (¬ metricJobsExist (run emptyStore
      [.createTrainingJob ⟨"resnet", [], []⟩ "jid-1" 0,
       .logMetric "jid-1" ⟨"ghost", "accuracy", 92⟩ 1])) ∧
    (∀ j ∈ (run emptyStore
      [.createTrainingJob ⟨"resnet", [], []⟩ "jid-1" 0,
       .logMetric "jid-1" ⟨"ghost", "accuracy", 92⟩ 1]).training_jobs,
        j.job_id ≠ "ghost") ∧
    (∀ j ∈ (run emptyStore
      [.createTrainingJob ⟨"resnet", [], []⟩ "jid-1" 0]).training_jobs,
        j.job_id ≠ "ghost") ∧
    (∀ j ∈ emptyStore.training_jobs, j.job_id ≠ "ghost") := by
  decide

/-- C2 (amended): for every trace of API calls in which each
metric-logging request's body `job_id` equals its URL-path `job_id`,
every Metric row in the resulting store references a training job that
exists in the store (jobs are never deleted, so existence at the end of
the trace and existence at the moment of creation coincide). -/
theorem C2_metric_rows_reference_existing_jobs (as : List Action)
    (h : ∀ a ∈ as, bodyMatchesPath a = true) :
    metricJobsExist (run emptyStore as) :=
  metricJobsExist_run as emptyStore
    (by intro m hm; simp [emptyStore] at hm) h

theorem C2_witness :
    (∀ a ∈ ([.createTrainingJob ⟨"resnet", [], []⟩ "jid-1" 0,
             .logMetric "jid-1" ⟨"jid-1", "accuracy", 92⟩ 1] :
        List Action), bodyMatchesPath a = true) ∧
    metricJobsExist (run emptyStore
      [.createTrainingJob ⟨"resnet", [], []⟩ "jid-1" 0,
       .logMetric "jid-1" ⟨"jid-1", "accuracy", 92⟩ 1]) :=
  ⟨by decide, C2_metric_rows_reference_existing_jobs _ (by decide)⟩

/-- C3: against a `job_id` with no matching TrainingJob row, each of
`log_metric`, `log_hyperparameter` and `update_training_job` fails with
a 404 `"Job not found"` and returns the store unchanged — no table is
touched. -/
theorem C3_unknown_job_404 (st : Store) (job_id : String)
    (m : MetricCreate) (hp : HyperparameterCreate)
    (u : TrainingJobStatusUpdate) (now now' : Nat)
    (h : findJob st job_id = none) :
    log_metric job_id m now st =
      (st, .error (.httpException 404 "Job not found")) ∧
    log_hyperparameter job_id hp now' st =
      (st, .error (.httpException 404 "Job not found")) ∧
    update_training_job job_id u st =
      (st, .error (.httpException 404 "Job not found")) := by
  refine ⟨?_, ?_, ?_⟩ <;>
    simp [log_metric, log_hyperparameter, update_training_job, h]

theorem C3_witness :
    log_metric "unknown-id" ⟨"unknown-id", "accuracy", 92⟩ 0 emptyStore =
      (emptyStore, .error (.httpException 404 "Job not found")) ∧
    log_hyperparameter "unknown-id" ⟨"unknown-id", "lr", 1⟩ 0 emptyStore =
      (emptyStore, .error (.httpException 404 "Job not found")) ∧
    update_training_job "unknown-id" ⟨"unknown-id", "done"⟩ emptyStore =
      (emptyStore, .error (.httpException 404 "Job not found")) :=
  C3_unknown_job_404 emptyStore "unknown-id"
    ⟨"unknown-id", "accuracy", 92⟩ ⟨"unknown-id", "lr", 1⟩
    ⟨"unknown-id", "done"⟩ 0 0 rfl

/-- C4: over any sequence of API calls starting from the empty store,
the `job_id` values returned by the successful job creations are
pairwise distinct. -/
theorem C4_created_job_ids_distinct (as : List Action) :
    (createdJobIds emptyStore as).Nodup :=
  createdJobIds_nodup as emptyStore

/-- C5: for an existing job and any string `s` (no validation, any
transition), `update_training_job` returns the job with its status
overwritten to `s`, and a subsequent `get_training_job` on the same
`job_id` returns a job whose status equals `s`. -/
theorem C5_update_status_overwrites (st : Store) (job_id : String)
    (body : TrainingJobStatusUpdate) (job : TrainingJob)
    (h : findJob st job_id = some job) :
    (update_training_job job_id body st).2 =
      .ok (.job { job with status := body.status }) ∧
    (get_training_job job_id (update_training_job job_id body st).1).2 =
      .ok (.job { job with status := body.status }) := by
  have h' : List.find? (fun j => j.job_id == job_id) st.training_jobs =
      some job := h
  have h2 := find_setStatusFirst st.training_jobs job_id body.status job h
  have h2' : List.find? (fun j => j.job_id == job_id)
      (setStatusFirst st.training_jobs job_id body.status) =
        some { job with status := body.status } := h2
  constructor
  · simp [update_training_job, findJob, h']
  · simp [update_training_job, get_training_job, findJob, h', h2']

theorem C5_witness :
    (update_training_job "j1" ⟨"j1", "pending"⟩
        (run emptyStore
          [.createTrainingJob ⟨"m", [], []⟩ "j1" 0,
           .updateTrainingJob "j1" ⟨"j1", "done"⟩])).2 =
      .ok (.job ⟨1, "j1", "m", "pending", 0⟩) ∧
    (get_training_job "j1"
        (update_training_job "j1" ⟨"j1", "pending"⟩
          (run emptyStore
            [.createTrainingJob ⟨"m", [], []⟩ "j1" 0,
             .updateTrainingJob "j1" ⟨"j1", "done"⟩])).1).2 =
      .ok (.job ⟨1, "j1", "m", "pending", 0⟩) :=
  C5_update_status_overwrites _ "j1" ⟨"j1", "pending"⟩
    ⟨1, "j1", "m", "done", 0⟩ (by decide)

/-- C6: `get_metrics job_id` succeeds with a list that is a
subsequence of the `metrics` table — hence in logged order, since the
table only ever grows by appending (last conjunct) — and that contains
each metric row exactly as often as the table does when its stored
`job_id` equals the argument, and never otherwise. -/
theorem C6_list_metrics_exact (st : Store) (job_id : String)
    (a : Action) :
    ∃ ms, (get_metrics job_id st).2 = .ok (.metricList ms) ∧
      ms.Sublist st.metrics ∧
      (∀ m, ms.count m =
        if m.job_id = job_id then st.metrics.count m else 0) ∧
      st.metrics <+: (step st a).metrics := by
  refine ⟨st.metrics.filter (fun m => m.job_id == job_id), rfl,
    List.filter_sublist _, ?_, ?_⟩
  · intro m
    by_cases hm : m.job_id = job_id
    · rw [if_pos hm]
      exact List.count_filter (by simp [hm])
    · rw [if_neg hm]
      refine List.count_eq_zero.mpr ?_
      intro hmem
      exact hm (by simpa using (List.mem_filter.mp hmem).2)
  · cases a with
    | createModelVersion model now =>
        simp [step, apply, create_model_version]
    | getModelVersions model_name =>
        simp [step, apply, get_model_versions]
    | createTrainingJob job new_uuid now =>
        by_cases h :
          (st.training_jobs.any (fun j => j.job_id == new_uuid)) = true <;>
          simp [step, apply, create_training_job, h]
    | getTrainingJob jid =>
        cases h : findJob st jid <;>
          simp [step, apply, get_training_job, h]
    | updateTrainingJob jid body =>
        cases h : findJob st jid <;>
          simp [step, apply, update_training_job, h]
    | logMetric jid body now =>
        cases h : findJob st jid <;>
          simp [step, apply, log_metric, h, MetricCreate.timestampAttr,
            List.prefix_append]
    | logHyperparameter jid body now =>
        cases h : findJob st jid <;>
          simp [step, apply, log_hyperparameter, h]
    | getMetrics jid => simp [step, apply, get_metrics]
    | getHyperparameters jid => simp [step, apply, get_hyperparameters]

/-- C7: when `create_training_job` succeeds (the generated uuid is
free), it returns a job whose status is `"pending"`, and
`get_training_job` on the returned `job_id` against the new store
returns that same job. -/
theorem C7_create_then_get_pending (st : Store) (job : TrainingJobCreate)
    (new_uuid : String) (now : Nat)
    (h : st.training_jobs.any (fun x => x.job_id == new_uuid) = false) :
    ∃ j, (create_training_job job new_uuid now st).2 = .ok (.job j) ∧
      j.status = "pending" ∧
      (get_training_job j.job_id
        (create_training_job job new_uuid now st).1).2 = .ok (.job j)
    := by
  refine ⟨⟨st.training_jobs.length + 1, new_uuid, job.model_name,
    "pending", now⟩, ?_, rfl, ?_⟩
  · simp [create_training_job, h]
  · have hnone : st.training_jobs.find?
        (fun x => x.job_id == new_uuid) = none :=
      List.find?_eq_none.mpr (by
        intro x hx
        simpa using List.any_eq_false.mp h x hx)
    simp [create_training_job, h, get_training_job, findJob,
      List.find?_append, hnone, List.find?]

theorem C7_witness :
    ∃ j, (create_training_job ⟨"resnet", [("lr", 1)], [("epochs", "10")]⟩
        "jid-1" 7 emptyStore).2 = .ok (.job j) ∧
      j.status = "pending" ∧
      (get_training_job j.job_id
        (create_training_job ⟨"resnet", [("lr", 1)], [("epochs", "10")]⟩
          "jid-1" 7 emptyStore).1).2 = .ok (.job j) :=
  C7_create_then_get_pending emptyStore
    ⟨"resnet", [("lr", 1)], [("epochs", "10")]⟩ "jid-1" 7 rfl

/-- C8: `log_metric` is not idempotent — two calls with identical
arguments against an existing job append two distinct Metric rows (the
surrogate keys differ), each carrying the body's `job_id`,
`metric_name` and `value`. -/
theorem C8_log_metric_not_idempotent (st : Store) (job_id : String)
    (body : MetricCreate) (now1 now2 : Nat) (job : TrainingJob)
    (h : findJob st job_id = some job) :
    ∃ m1 m2,
      ((log_metric job_id body now2
          (log_metric job_id body now1 st).1).1).metrics =
        st.metrics ++ [m1, m2] ∧
      m1 ≠ m2 ∧
      m1.job_id = body.job_id ∧ m1.metric_name = body.metric_name ∧
      m1.value = body.value ∧
      m2.job_id = body.job_id ∧ m2.metric_name = body.metric_name ∧
      m2.value = body.value := by
  have h' : List.find? (fun j => j.job_id == job_id) st.training_jobs =
      some job := h
  have h1 : (log_metric job_id body now1 st).1 =
      { st with metrics := st.metrics ++
          [⟨st.metrics.length + 1, body.job_id, body.metric_name,
            body.value, now1⟩] } := by
    simp [log_metric, findJob, h', MetricCreate.timestampAttr]
  refine ⟨⟨st.metrics.length + 1, body.job_id, body.metric_name,
      body.value, now1⟩,
    ⟨st.metrics.length + 2, body.job_id, body.metric_name,
      body.value, now2⟩, ?_, ?_, rfl, rfl, rfl, rfl, rfl, rfl⟩
  · rw [h1]
    simp [log_metric, findJob, h', MetricCreate.timestampAttr]
  · intro he
    have := congrArg Metric.id he
    simp at this

theorem C8_witness :
    ∃ m1 m2,
      ((log_metric "jid-1" ⟨"jid-1", "accuracy", 92⟩ 3
          (log_metric "jid-1" ⟨"jid-1", "accuracy", 92⟩ 3
            (step emptyStore
              (.createTrainingJob ⟨"m", [], []⟩ "jid-1" 0))).1).1).metrics
        = (step emptyStore
            (.createTrainingJob ⟨"m", [], []⟩ "jid-1" 0)).metrics ++
          [m1, m2] ∧
      m1 ≠ m2 ∧
      m1.job_id = "jid-1" ∧ m1.metric_name = "accuracy" ∧
      m1.value = 92 ∧
      m2.job_id = "jid-1" ∧ m2.metric_name = "accuracy" ∧
      m2.value = 92 :=
  C8_log_metric_not_idempotent
    (step emptyStore (.createTrainingJob ⟨"m", [], []⟩ "jid-1" 0))
    "jid-1" ⟨"jid-1", "accuracy", 92⟩ 3 3
    ⟨1, "jid-1", "m", "pending", 0⟩ (by decide)

/-- C9: `get_metrics` performs no existence check — for any `job_id`
with no matching metric rows (in particular one with no TrainingJob at
all) it succeeds with the empty list and leaves the store unchanged,
in contrast to the 404 of the write path and of `get_training_job`. -/
theorem C9_list_metrics_unknown_job_ok (st : Store) (job_id : String)
    (h : ∀ m ∈ st.metrics, m.job_id ≠ job_id) :
    get_metrics job_id st = (st, .ok (.metricList [])) := by
  have hnil : st.metrics.filter (fun m => m.job_id == job_id) = [] :=
    List.filter_eq_nil_iff.mpr (by intro m hm; simpa using h m hm)
  simp [get_metrics, hnil]

theorem C9_witness :
    get_metrics "unknown-id"
        ((log_metric "jid-1" ⟨"jid-1", "accuracy", 92⟩ 1
          (step emptyStore
            (.createTrainingJob ⟨"m", [], []⟩ "jid-1" 0))).1) =
      ((log_metric "jid-1" ⟨"jid-1", "accuracy", 92⟩ 1
          (step emptyStore
            (.createTrainingJob ⟨"m", [], []⟩ "jid-1" 0))).1,
       .ok (.metricList [])) :=
  C9_list_metrics_unknown_job_ok _ "unknown-id" (by decide)

/-- C10: a successful `create_training_job` changes the store only by
appending one TrainingJob row and the four mirror-forwarding events:
the `metrics`, `hyperparameters` and `model_versions` tables are
untouched, and the supplied `hyperparameters` and `config` reach only
the Tracking Mirror. -/
theorem C10_create_job_frame (st : Store) (job : TrainingJobCreate)
    (new_uuid : String) (now : Nat)
    (h : st.training_jobs.any (fun x => x.job_id == new_uuid) = false) :
    ∃ j, create_training_job job new_uuid now st =
      ({ st with
          training_jobs := st.training_jobs ++ [j],
          mirror := st.mirror ++
            [.startRun new_uuid, .logParams job.config,
             .logMetrics job.hyperparameters, .endRun] },
       .ok (.job j)) := by
  refine ⟨⟨st.training_jobs.length + 1, new_uuid, job.model_name,
    "pending", now⟩, ?_⟩
  simp [create_training_job, h]

theorem C10_witness :
    ∃ j, create_training_job ⟨"resnet", [("lr", 1)], [("epochs", "10")]⟩
        "jid-1" 7 emptyStore =
      ({ emptyStore with
          training_jobs := emptyStore.training_jobs ++ [j],
          mirror := emptyStore.mirror ++
            [.startRun "jid-1", .logParams [("epochs", "10")],
             .logMetrics [("lr", 1)], .endRun] },
       .ok (.job j)) :=
  C10_create_job_frame emptyStore
    ⟨"resnet", [("lr", 1)], [("epochs", "10")]⟩ "jid-1" 7 rfl

end NeuraOrchestra
